import Mathlib

/-!
Shallow embedding of the MERN Task Manager authentication controller
(backend/controllers/authController.js) and of the task-progress rule.

Users are records in a list-backed store; environment configuration
(JWT signing secret, admin invite secret) is an explicit structure whose
optional fields model unset environment variables.  JavaScript string
truthiness (undefined and "" are falsy) is modelled explicitly.
-/

/-- JS truthiness of an optional string field: `undefined` and `""` are falsy. -/
def jsTruthy : Option String → Bool
  | none => false
  | some s => s != ""

/-- JS `String.prototype.trim`: drop whitespace from both ends. -/
def jsTrim (s : String) : String :=
  ⟨((s.data.dropWhile Char.isWhitespace).reverse.dropWhile Char.isWhitespace).reverse⟩

/-- JS `String.prototype.toLowerCase` (character-wise lower-casing). -/
def jsToLower (s : String) : String :=
  ⟨s.data.map Char.toLower⟩

/-- `normalizeEmail` from the source: trim then lower-case; default `""`. -/
def normalizeEmail (e : String) : String :=
  jsToLower (jsTrim e)

/-- Deterministic model of the bcrypt salted hash (`bcrypt.hash`). -/
def bcryptHash (password : String) : String :=
  "$2b$10$" ++ password

/-- Model of `bcrypt.compare password storedHash`. -/
def bcryptCompare (password storedHash : String) : Bool :=
  storedHash == bcryptHash password

/-- Environment configuration read by the controller (`process.env`). -/
structure Env where
  jwtSecret : Option String
  adminInviteToken : Option String
deriving DecidableEq

/-- A persisted user record (the fields the controller touches). -/
structure User where
  _id : Nat
  name : String
  email : String
  password : String
  profileImageUrl : String
  role : String
deriving DecidableEq

/-- `hasJwtSecret` from the source: `Boolean(process.env.JWT_SECRET)`. -/
def hasJwtSecret (env : Env) : Bool :=
  jsTruthy env.jwtSecret

/-- A signed session token (`jwt.sign({id}, secret, {expiresIn: "7d"})`). -/
structure SignedToken where
  userId : Nat
  secret : String
  expiresInDays : Nat
deriving DecidableEq

/-- `generateToken` from the source: `none` models the thrown
`JWT_SECRET not set` error. -/
def generateToken (env : Env) (userId : Nat) : Option SignedToken :=
  if hasJwtSecret env then some ⟨userId, env.jwtSecret.getD "", 7⟩ else none

/-- The exact shape of a successful auth response body (`sendUser`). -/
structure UserResponse where
  _id : Nat
  name : String
  email : String
  role : String
  profileImageUrl : String
  token : SignedToken
deriving DecidableEq

/-- `sendUser` from the source; `none` when token signing throws. -/
def sendUser (env : Env) (u : User) : Option UserResponse :=
  (generateToken env u._id).map fun t =>
    ⟨u._id, u.name, u.email, u.role, u.profileImageUrl, t⟩

/-- Outcome of a controller call: an HTTP status with either a user body
or an error `{code, message}` body. -/
inductive ApiResult where
  | success : Nat → UserResponse → ApiResult
  | failure : Nat → String → String → ApiResult
deriving DecidableEq

/-- The HTTP status of a controller outcome. -/
def ApiResult.status : ApiResult → Nat
  | .success s _ => s
  | .failure s _ _ => s

/-- The regex `^\S+@\S+\.\S+$` from the source: every character is
non-whitespace and the string decomposes as `a ++ "@" ++ b ++ "." ++ c`
with `a`, `b`, `c` nonempty. -/
def matchesEmailRegex (s : String) : Bool :=
  let cs := s.toList
  cs.all (fun c => !c.isWhitespace) &&
  (List.range cs.length).any fun i =>
    cs.getD i ' ' == '@' && decide (1 ≤ i) &&
    ((List.range cs.length).any fun j =>
      cs.getD j ' ' == '.' && decide (i + 2 ≤ j) && decide (j + 2 ≤ cs.length))

/-- The JSON body of `POST /api/auth/register`; `none` fields are absent. -/
structure RegisterReq where
  name : Option String
  email : Option String
  password : Option String
  profileImageUrl : Option String
  adminInviteToken : Option String

/-- `registerUser` from the source, acting on a list-backed user store.
`nextId` models the identifier the store assigns to a created record.
Returns the response together with the store after the call. -/
def registerUser (env : Env) (store : List User) (nextId : Nat)
    (req : RegisterReq) : ApiResult × List User :=
  let name := jsTrim (req.name.getD "")
  let email := normalizeEmail (req.email.getD "")
  let password := req.password.getD ""
  if name = "" ∨ email = "" ∨ password = "" then
    (.failure 400 "MISSING_FIELDS" "Name, email and password are required", store)
  else if ¬ matchesEmailRegex email then
    (.failure 400 "BAD_EMAIL" "Email format is invalid", store)
  else if password.length < 6 then
    (.failure 400 "WEAK_PASSWORD" "Password must be at least 6 characters", store)
  else if jsTruthy req.adminInviteToken ∧ req.adminInviteToken ≠ env.adminInviteToken then
    (.failure 403 "BAD_INVITE" "Invalid admin invite token", store)
  else if ∃ u ∈ store, u.email = email then
    (.failure 409 "DUP_EMAIL" "Email already registered", store)
  else
    let role :=
      if jsTruthy req.adminInviteToken ∧ req.adminInviteToken = env.adminInviteToken
      then "admin" else "member"
    let user : User :=
      ⟨nextId, name, email, bcryptHash password, req.profileImageUrl.getD "", role⟩
    let store1 := store ++ [user]
    match sendUser env user with
    | some body => (.success 201 body, store1)
    | none =>
        (.failure 500 "NO_JWT_SECRET" "Server misconfigured: JWT_SECRET not set", store1)

/-- The JSON body of `POST /api/auth/login`. -/
structure LoginReq where
  email : Option String
  password : Option String

/-- `loginUser` from the source (read-only on the store). -/
def loginUser (env : Env) (store : List User) (req : LoginReq) : ApiResult :=
  let email := normalizeEmail (req.email.getD "")
  let password := req.password.getD ""
  if email = "" ∨ password = "" then
    .failure 400 "MISSING_FIELDS" "Email and password are required"
  else
    match store.find? (fun u => u.email == email) with
    | none => .failure 401 "BAD_CREDENTIALS" "Invalid email or password"
    | some user =>
        if ¬ bcryptCompare password user.password then
          .failure 401 "BAD_CREDENTIALS" "Invalid email or password"
        else
          match sendUser env user with
          | some body => .success 200 body
          | none =>
              .failure 500 "NO_JWT_SECRET" "Server misconfigured: JWT_SECRET not set"

/-- The JSON body of `PUT /api/auth/profile`. -/
structure UpdateReq where
  name : Option String
  email : Option String
  password : Option String
  profileImageUrl : Option String

/-- The three field assignments at the top of `updateUserProfile`:
`name` and `email` are applied when JS-truthy, `profileImageUrl` whenever
the field is present (the source tests `!== undefined`). -/
def applyProfileFields (user0 : User) (req : UpdateReq) : User :=
  let u1 := if jsTruthy req.name then { user0 with name := jsTrim (req.name.getD "") } else user0
  let u2 := if jsTruthy req.email then { u1 with email := normalizeEmail (req.email.getD "") } else u1
  if req.profileImageUrl.isSome then { u2 with profileImageUrl := req.profileImageUrl.getD "" } else u2

/-- `updateUserProfile` from the source: loads the authenticated user,
applies the supplied fields in source order, rejects a weak new password,
rejects an email owned by a different user, and only then saves. -/
def updateUserProfile (env : Env) (store : List User) (userId : Nat)
    (req : UpdateReq) : ApiResult × List User :=
  match store.find? (fun u => u._id == userId) with
  | none => (.failure 404 "NOT_FOUND" "User not found", store)
  | some user0 =>
    let u3 := applyProfileFields user0 req
    if jsTruthy req.password ∧ (req.password.getD "").length < 6 then
      (.failure 400 "WEAK_PASSWORD" "Password must be at least 6 characters", store)
    else
      let u4 := if jsTruthy req.password then { u3 with password := bcryptHash (req.password.getD "") } else u3
      if jsTruthy req.email ∧ ∃ v ∈ store, v._id ≠ user0._id ∧ v.email = u4.email then
        (.failure 409 "DUP_EMAIL" "Email already registered", store)
      else
        let store1 := store.map fun v => if v._id = user0._id then u4 else v
        match sendUser env u4 with
        | some body => (.success 200 body, store1)
        | none => (.failure 500 "SERVER" "Server error", store1)

/-- The user record `updateUserProfile` saves, field by field: every
supplied field is replaced, every other field (including `_id` and
`role`) keeps its stored value. -/
def appliedProfileUser (user0 : User) (req : UpdateReq) : User :=
  { _id := user0._id,
    name := if jsTruthy req.name then jsTrim (req.name.getD "") else user0.name,
    email := if jsTruthy req.email then normalizeEmail (req.email.getD "") else user0.email,
    password := if jsTruthy req.password then bcryptHash (req.password.getD "") else user0.password,
    profileImageUrl := if req.profileImageUrl.isSome then req.profileImageUrl.getD "" else user0.profileImageUrl,
    role := user0.role }

/-- The chained field assignments of the source flatten to
`appliedProfileUser`. -/
theorem applyProfileFields_flatten (user0 : User) (req : UpdateReq) :
    (if jsTruthy req.password then
      { applyProfileFields user0 req with password := bcryptHash (req.password.getD "") }
    else applyProfileFields user0 req) = appliedProfileUser user0 req := by
  unfold applyProfileFields appliedProfileUser
  dsimp only
  split_ifs <;> rfl

/-- A checklist item of a task: text plus a done flag. -/
structure ChecklistItem where
  text : String
  done : Bool
deriving DecidableEq

/-- Modelled from the spec: the task controller that computes checklist
progress is not among the provided source files.  Per the spec, progress
is `(count of done checklist items / total checklist items) × 100`,
rounded, and `0` when there are no checklist items. -/
def taskProgress (items : List ChecklistItem) : ℤ :=
  let total := items.length
  if total = 0 then 0
  else round ((((items.filter fun i => i.done).length : ℚ) / total) * 100)

/-! ## Theorems about the claims -/

/-- C10: a login request whose email or password is missing or empty
(after normalization) fails with the 400 `MISSING_FIELDS` validation
error, not with the 401 `InvalidCredentials` error. -/
theorem login_missing_fields_is_400 (env : Env) (store : List User) (req : LoginReq)
    (h : normalizeEmail (req.email.getD "") = "" ∨ req.password.getD "" = "") :
    loginUser env store req =
      .failure 400 "MISSING_FIELDS" "Email and password are required" ∧
    (loginUser env store req).status ≠ 401 := by
  have hl : loginUser env store req =
      .failure 400 "MISSING_FIELDS" "Email and password are required" := by
    unfold loginUser
    exact if_pos h
  exact ⟨hl, by rw [hl]; simp [ApiResult.status]⟩

/-- Closed instance of `login_missing_fields_is_400` at a concrete request. -/
theorem login_missing_fields_is_400_witness :
    (normalizeEmail ((none : Option String).getD "") = "" ∨
      ((some "hunter2" : Option String).getD "") = "") ∧
    (loginUser ⟨some "s", none⟩ [] ⟨none, some "hunter2"⟩ =
      .failure 400 "MISSING_FIELDS" "Email and password are required" ∧
    (loginUser ⟨some "s", none⟩ [] ⟨none, some "hunter2"⟩).status ≠ 401) :=
  ⟨Or.inl (by decide),
    login_missing_fields_is_400 ⟨some "s", none⟩ [] ⟨none, some "hunter2"⟩ (Or.inl (by decide))⟩

/-- C2: a login with an unknown email and a login with a registered email
but a wrong password produce the same response: status 401, code
`BAD_CREDENTIALS`, message `Invalid email or password`. -/
theorem login_failure_indistinguishable (env : Env) (store : List User)
    (req1 req2 : LoginReq) (u : User)
    (h1e : normalizeEmail (req1.email.getD "") ≠ "")
    (h1p : req1.password.getD "" ≠ "")
    (h1find : store.find? (fun v => v.email == normalizeEmail (req1.email.getD "")) = none)
    (h2e : normalizeEmail (req2.email.getD "") ≠ "")
    (h2p : req2.password.getD "" ≠ "")
    (h2find : store.find? (fun v => v.email == normalizeEmail (req2.email.getD "")) = some u)
    (h2pw : bcryptCompare (req2.password.getD "") u.password = false) :
    loginUser env store req1 = loginUser env store req2 ∧
    loginUser env store req1 =
      .failure 401 "BAD_CREDENTIALS" "Invalid email or password" := by
  have e1 : loginUser env store req1 =
      .failure 401 "BAD_CREDENTIALS" "Invalid email or password" := by
    unfold loginUser
    rw [if_neg (by tauto), h1find]
  have e2 : loginUser env store req2 =
      .failure 401 "BAD_CREDENTIALS" "Invalid email or password" := by
    unfold loginUser
    rw [if_neg (by tauto), h2find]
    simp [h2pw]
  exact ⟨e1.trans e2.symm, e1⟩

/-- Closed instance of `login_failure_indistinguishable`: store holds one
user `a@b.c`; request 1 uses an unknown email, request 2 the right email
with a wrong password. -/
theorem login_failure_indistinguishable_witness :
    loginUser ⟨some "s", none⟩
        [⟨1, "Al", "a@b.c", bcryptHash "secret1", "", "member"⟩]
        ⟨some "zz@b.c", some "secret1"⟩ =
      loginUser ⟨some "s", none⟩
        [⟨1, "Al", "a@b.c", bcryptHash "secret1", "", "member"⟩]
        ⟨some "a@b.c", some "wrongpw"⟩ ∧
    loginUser ⟨some "s", none⟩
        [⟨1, "Al", "a@b.c", bcryptHash "secret1", "", "member"⟩]
        ⟨some "zz@b.c", some "secret1"⟩ =
      .failure 401 "BAD_CREDENTIALS" "Invalid email or password" :=
  login_failure_indistinguishable ⟨some "s", none⟩
    [⟨1, "Al", "a@b.c", bcryptHash "secret1", "", "member"⟩]
    ⟨some "zz@b.c", some "secret1"⟩ ⟨some "a@b.c", some "wrongpw"⟩
    ⟨1, "Al", "a@b.c", bcryptHash "secret1", "", "member"⟩
    (by decide) (by decide) (by decide) (by decide) (by decide) (by decide) (by decide)

/-- C3: a registration whose normalized (trimmed, lower-cased) email equals
the email of an already-stored user fails with 409 `DUP_EMAIL` and leaves
the store unchanged. -/
theorem register_duplicate_email_409 (env : Env) (store : List User) (nextId : Nat)
    (req : RegisterReq)
    (hname : jsTrim (req.name.getD "") ≠ "")
    (hregex : matchesEmailRegex (normalizeEmail (req.email.getD "")) = true)
    (hpw : ¬ (req.password.getD "").length < 6)
    (hinvite : ¬ (jsTruthy req.adminInviteToken = true ∧
      req.adminInviteToken ≠ env.adminInviteToken))
    (hdup : ∃ u ∈ store, u.email = normalizeEmail (req.email.getD "")) :
    registerUser env store nextId req =
      (.failure 409 "DUP_EMAIL" "Email already registered", store) := by
  have hpwne : req.password.getD "" ≠ "" := fun h => hpw (by simp [h])
  have hemail : normalizeEmail (req.email.getD "") ≠ "" := by
    intro h
    rw [h] at hregex
    exact absurd hregex (by decide)
  unfold registerUser
  dsimp only
  rw [if_neg (by tauto), if_neg (by simp [hregex]), if_neg hpw, if_neg hinvite, if_pos hdup]

/-- Closed instance of `register_duplicate_email_409`: registering
`" A@b.Com "` conflicts with the stored user `a@b.com`. -/
theorem register_duplicate_email_409_witness :
    registerUser ⟨some "s", none⟩
        [⟨1, "Al", "a@b.com", bcryptHash "secret1", "", "member"⟩] 2
        ⟨some "Bo", some " A@b.Com ", some "secret2", none, none⟩ =
      (.failure 409 "DUP_EMAIL" "Email already registered",
        [⟨1, "Al", "a@b.com", bcryptHash "secret1", "", "member"⟩]) :=
  register_duplicate_email_409 ⟨some "s", none⟩
    [⟨1, "Al", "a@b.com", bcryptHash "secret1", "", "member"⟩] 2
    ⟨some "Bo", some " A@b.Com ", some "secret2", none, none⟩
    (by decide) (by decide) (by decide) (by decide) (by decide)

/-- C1: with otherwise-valid registration input, (a) a supplied invite
token that differs from the configured secret yields 403 `BAD_INVITE` and
an unchanged store (no silently downgraded user); (b) a supplied matching
token creates the user with role `admin`; (c) an absent (or empty, hence
JS-falsy) token creates the user with role `member`. -/
theorem register_invite_token_gate (env : Env) (store : List User) (nextId : Nat)
    (req : RegisterReq)
    (hname : jsTrim (req.name.getD "") ≠ "")
    (hregex : matchesEmailRegex (normalizeEmail (req.email.getD "")) = true)
    (hpw : ¬ (req.password.getD "").length < 6) :
    ((jsTruthy req.adminInviteToken = true ∧
        req.adminInviteToken ≠ env.adminInviteToken) →
      registerUser env store nextId req =
        (.failure 403 "BAD_INVITE" "Invalid admin invite token", store)) ∧
    ((jsTruthy req.adminInviteToken = true ∧
        req.adminInviteToken = env.adminInviteToken ∧
        ¬ ∃ u ∈ store, u.email = normalizeEmail (req.email.getD "")) →
      ∃ u, (registerUser env store nextId req).2 = store ++ [u] ∧ u.role = "admin") ∧
    ((jsTruthy req.adminInviteToken = false ∧
        ¬ ∃ u ∈ store, u.email = normalizeEmail (req.email.getD "")) →
      ∃ u, (registerUser env store nextId req).2 = store ++ [u] ∧ u.role = "member") := by
  have hpwne : req.password.getD "" ≠ "" := fun h => hpw (by simp [h])
  have hemail : normalizeEmail (req.email.getD "") ≠ "" := by
    intro h
    rw [h] at hregex
    exact absurd hregex (by decide)
  refine ⟨?_, ?_, ?_⟩
  · rintro ⟨htru, hne⟩
    unfold registerUser
    dsimp only
    rw [if_neg (by tauto), if_neg (by simp [hregex]), if_neg hpw, if_pos ⟨htru, hne⟩]
  · rintro ⟨htru, heq, hdup⟩
    refine ⟨⟨nextId, jsTrim (req.name.getD ""), normalizeEmail (req.email.getD ""),
      bcryptHash (req.password.getD ""), req.profileImageUrl.getD "", "admin"⟩, ?_, rfl⟩
    unfold registerUser
    dsimp only
    rw [if_neg (by tauto), if_neg (by simp [hregex]), if_neg hpw,
      if_neg (by tauto), if_neg hdup, if_pos ⟨htru, heq⟩]
    split <;> rfl
  · rintro ⟨hfalse, hdup⟩
    refine ⟨⟨nextId, jsTrim (req.name.getD ""), normalizeEmail (req.email.getD ""),
      bcryptHash (req.password.getD ""), req.profileImageUrl.getD "", "member"⟩, ?_, rfl⟩
    unfold registerUser
    dsimp only
    rw [if_neg (by tauto), if_neg (by simp [hregex]), if_neg hpw,
      if_neg (by simp [hfalse]), if_neg hdup, if_neg (by simp [hfalse])]
    split <;> rfl

/-- Closed instance of `register_invite_token_gate`: a wrong invite token
is rejected with 403 and no user is stored. -/
theorem register_invite_token_gate_witness :
    ((jsTruthy (some "wrong" : Option String) = true ∧
        (some "wrong" : Option String) ≠ (⟨some "s", some "ivt"⟩ : Env).adminInviteToken) →
      registerUser ⟨some "s", some "ivt"⟩ [] 1
          ⟨some "Al", some "a@b.c", some "secret1", none, some "wrong"⟩ =
        (.failure 403 "BAD_INVITE" "Invalid admin invite token", [])) ∧
    registerUser ⟨some "s", some "ivt"⟩ [] 1
        ⟨some "Al", some "a@b.c", some "secret1", none, some "wrong"⟩ =
      (.failure 403 "BAD_INVITE" "Invalid admin invite token", []) :=
  have h := register_invite_token_gate ⟨some "s", some "ivt"⟩ [] 1
    ⟨some "Al", some "a@b.c", some "secret1", none, some "wrong"⟩
    (by decide) (by decide) (by decide)
  ⟨h.1, h.1 ⟨by decide, by decide⟩⟩

/-- C8: registration is not atomic with token issuance: with valid input
and the signing secret unset, the call returns the 500 `NO_JWT_SECRET`
error yet the user record has been persisted to the store. -/
theorem register_persists_user_despite_token_failure :
    registerUser ⟨none, none⟩ [] 1
        ⟨some "Al", some "a@b.c", some "secret1", none, none⟩ =
      (.failure 500 "NO_JWT_SECRET" "Server misconfigured: JWT_SECRET not set",
        [⟨1, "Al", "a@b.c", bcryptHash "secret1", "", "member"⟩]) ∧
    (registerUser ⟨none, none⟩ [] 1
        ⟨some "Al", some "a@b.c", some "secret1", none, none⟩).2 ≠ [] := by
  decide

/-- C4: task progress is 0 on an empty checklist and otherwise equals
`round (100 × done / total)`. -/
theorem task_progress_formula (items : List ChecklistItem) :
    (items = [] → taskProgress items = 0) ∧
    (items ≠ [] → taskProgress items =
      round ((100 * (((items.filter fun i => i.done).length : ℚ))) / items.length)) := by
  constructor
  · rintro rfl
    simp [taskProgress]
  · intro h
    have hlen : items.length ≠ 0 := by simpa using h
    simp only [taskProgress, if_neg hlen]
    rw [div_mul_eq_mul_div, mul_comm]

/-- Closed instance of `task_progress_formula` on the spec's worked
example: four checklist items with two done. -/
theorem task_progress_formula_witness :
    ([⟨"a", true⟩, ⟨"b", true⟩, ⟨"c", false⟩, ⟨"d", false⟩] : List ChecklistItem) ≠ [] ∧
    taskProgress [⟨"a", true⟩, ⟨"b", true⟩, ⟨"c", false⟩, ⟨"d", false⟩] =
      round ((100 * ((([⟨"a", true⟩, ⟨"b", true⟩, ⟨"c", false⟩, ⟨"d", false⟩]
          : List ChecklistItem).filter fun i => i.done).length : ℚ)) /
        ([⟨"a", true⟩, ⟨"b", true⟩, ⟨"c", false⟩, ⟨"d", false⟩]
          : List ChecklistItem).length) :=
  ⟨by decide,
    (task_progress_formula [⟨"a", true⟩, ⟨"b", true⟩, ⟨"c", false⟩, ⟨"d", false⟩]).2
      (by decide)⟩

/-- C7: profile update of the found user: (a) a supplied password shorter
than 6 characters fails with `WEAK_PASSWORD`; (b) a supplied email owned
by a different user fails with `DUP_EMAIL`; (c) otherwise the saved
record replaces exactly the supplied fields (a supplied password is
re-hashed) and keeps every other field, including `_id` and `role`. -/
theorem profile_update_partial_fields (env : Env) (store : List User) (userId : Nat)
    (req : UpdateReq) (user0 : User)
    (hfind : store.find? (fun u => u._id == userId) = some user0) :
    ((jsTruthy req.password = true ∧ (req.password.getD "").length < 6) →
      updateUserProfile env store userId req =
        (.failure 400 "WEAK_PASSWORD" "Password must be at least 6 characters", store)) ∧
    ((¬ (jsTruthy req.password = true ∧ (req.password.getD "").length < 6)) →
      jsTruthy req.email = true →
      (∃ v ∈ store, v._id ≠ user0._id ∧ v.email = normalizeEmail (req.email.getD "")) →
      updateUserProfile env store userId req =
        (.failure 409 "DUP_EMAIL" "Email already registered", store)) ∧
    ((¬ (jsTruthy req.password = true ∧ (req.password.getD "").length < 6)) →
      (¬ (jsTruthy req.email = true ∧ ∃ v ∈ store, v._id ≠ user0._id ∧
        v.email = (appliedProfileUser user0 req).email)) →
      (updateUserProfile env store userId req).2 =
        store.map fun v => if v._id = user0._id then appliedProfileUser user0 req else v) := by
  refine ⟨?_, ?_, ?_⟩
  · intro hweak
    unfold updateUserProfile
    rw [hfind]
    dsimp only
    rw [if_pos hweak]
  · intro hweak htru hdup
    unfold updateUserProfile
    rw [hfind]
    dsimp only
    rw [if_neg hweak, applyProfileFields_flatten]
    obtain ⟨v, hv, hne, he⟩ := hdup
    rw [if_pos ⟨htru, v, hv, hne, by simp [appliedProfileUser, htru, he]⟩]
  · intro hweak hnodup
    unfold updateUserProfile
    rw [hfind]
    dsimp only
    rw [if_neg hweak, applyProfileFields_flatten, if_neg hnodup]
    split <;> rfl

/-- Closed instance of `profile_update_partial_fields`: a five-character
new password is rejected with `WEAK_PASSWORD` and nothing is saved. -/
theorem profile_update_partial_fields_witness :
    (jsTruthy (some "12345" : Option String) = true ∧
      ((some "12345" : Option String).getD "").length < 6) ∧
    updateUserProfile ⟨some "s", none⟩
        [⟨1, "Al", "a@b.c", bcryptHash "secret1", "", "member"⟩] 1
        ⟨some "Alice", none, some "12345", none⟩ =
      (.failure 400 "WEAK_PASSWORD" "Password must be at least 6 characters",
        [⟨1, "Al", "a@b.c", bcryptHash "secret1", "", "member"⟩]) :=
  ⟨⟨by decide, by decide⟩,
    (profile_update_partial_fields ⟨some "s", none⟩
      [⟨1, "Al", "a@b.c", bcryptHash "secret1", "", "member"⟩] 1
      ⟨some "Alice", none, some "12345", none⟩
      ⟨1, "Al", "a@b.c", bcryptHash "secret1", "", "member"⟩
      (by decide)).1 ⟨by decide, by decide⟩⟩

/-- C9: whenever a profile update fails with `WEAK_PASSWORD` or
`DUP_EMAIL`, the store is unchanged: the save runs only after both
checks pass. -/
theorem profile_update_failure_atomic (env : Env) (store : List User) (userId : Nat)
    (req : UpdateReq) (r : ApiResult) (s1 : List User) (st : Nat) (m : String)
    (hp : updateUserProfile env store userId req = (r, s1))
    (hcode : r = .failure st "WEAK_PASSWORD" m ∨ r = .failure st "DUP_EMAIL" m) :
    s1 = store := by
  unfold updateUserProfile at hp
  split at hp
  · exact (congrArg Prod.snd hp).symm
  · dsimp only at hp
    split_ifs at hp
    all_goals
      first
      | exact (congrArg Prod.snd hp).symm
      | (split at hp <;>
          (injection hp with hr hs
           rcases hcode with h | h <;> rw [h] at hr <;> exact absurd hr (by simp)))

/-- Closed instance of `profile_update_failure_atomic`: changing the email
to one owned by another user fails with `DUP_EMAIL` and keeps the store. -/
theorem profile_update_failure_atomic_witness :
    updateUserProfile ⟨some "s", none⟩
        [⟨1, "Al", "a@b.c", bcryptHash "secret1", "", "member"⟩,
          ⟨2, "Bo", "b@b.c", bcryptHash "secret2", "", "member"⟩] 1
        ⟨none, some "b@b.c", none, none⟩ =
      (.failure 409 "DUP_EMAIL" "Email already registered",
        [⟨1, "Al", "a@b.c", bcryptHash "secret1", "", "member"⟩,
          ⟨2, "Bo", "b@b.c", bcryptHash "secret2", "", "member"⟩]) ∧
    ([⟨1, "Al", "a@b.c", bcryptHash "secret1", "", "member"⟩,
      ⟨2, "Bo", "b@b.c", bcryptHash "secret2", "", "member"⟩] : List User) =
      [⟨1, "Al", "a@b.c", bcryptHash "secret1", "", "member"⟩,
        ⟨2, "Bo", "b@b.c", bcryptHash "secret2", "", "member"⟩] :=
  ⟨by decide,
    profile_update_failure_atomic ⟨some "s", none⟩
      [⟨1, "Al", "a@b.c", bcryptHash "secret1", "", "member"⟩,
        ⟨2, "Bo", "b@b.c", bcryptHash "secret2", "", "member"⟩] 1
      ⟨none, some "b@b.c", none, none⟩
      (.failure 409 "DUP_EMAIL" "Email already registered")
      [⟨1, "Al", "a@b.c", bcryptHash "secret1", "", "member"⟩,
        ⟨2, "Bo", "b@b.c", bcryptHash "secret2", "", "member"⟩] 409 "Email already registered"
      (by decide) (Or.inr rfl)⟩

/-- C5, counterexample: with the signing secret unset and otherwise valid
input, register fails with status 500 (`NO_JWT_SECRET`), not with 401 as
the claim states. -/
theorem auth_unset_secret_counterexample :
    (registerUser ⟨none, none⟩ [] 1
        ⟨some "Bo", some "b@c.d", some "secret2", none, none⟩).1 =
      .failure 500 "NO_JWT_SECRET" "Server misconfigured: JWT_SECRET not set" ∧
    ((registerUser ⟨none, none⟩ [] 1
        ⟨some "Bo", some "b@c.d", some "secret2", none, none⟩).1).status ≠ 401 := by
  decide

/-- C5, amended: register and login invoked while the signing secret is
unset fail, once they reach token issuance, with status 500 and code
`NO_JWT_SECRET` (a server-misconfiguration error), not 401. -/
theorem auth_unset_secret_500 (env : Env) (store : List User) (nextId : Nat)
    (req : RegisterReq) (req2 : LoginReq) (u : User)
    (hsec : hasJwtSecret env = false)
    (hname : jsTrim (req.name.getD "") ≠ "")
    (hregex : matchesEmailRegex (normalizeEmail (req.email.getD "")) = true)
    (hpw : ¬ (req.password.getD "").length < 6)
    (hinvite : ¬ (jsTruthy req.adminInviteToken = true ∧
      req.adminInviteToken ≠ env.adminInviteToken))
    (hdup : ¬ ∃ x ∈ store, x.email = normalizeEmail (req.email.getD "")) :
    (registerUser env store nextId req).1 =
      .failure 500 "NO_JWT_SECRET" "Server misconfigured: JWT_SECRET not set" ∧
    ((store.find? (fun v => v.email == normalizeEmail (req2.email.getD "")) = some u) →
      normalizeEmail (req2.email.getD "") ≠ "" →
      req2.password.getD "" ≠ "" →
      bcryptCompare (req2.password.getD "") u.password = true →
      loginUser env store req2 =
        .failure 500 "NO_JWT_SECRET" "Server misconfigured: JWT_SECRET not set") := by
  have hpwne : req.password.getD "" ≠ "" := fun h => hpw (by simp [h])
  have hemail : normalizeEmail (req.email.getD "") ≠ "" := by
    intro h
    rw [h] at hregex
    exact absurd hregex (by decide)
  constructor
  · unfold registerUser
    dsimp only
    rw [if_neg (by tauto), if_neg (by simp [hregex]), if_neg hpw, if_neg hinvite,
      if_neg hdup]
    simp [sendUser, generateToken, hsec]
  · intro hfind hne hpne hcmp
    unfold loginUser
    rw [if_neg (by tauto), hfind]
    dsimp only
    rw [if_neg (by simp [hcmp])]
    simp [sendUser, generateToken, hsec]

/-- Closed instance of `auth_unset_secret_500`: both branches at a
one-user store with no configured secrets. -/
theorem auth_unset_secret_500_witness :
    (registerUser ⟨none, none⟩
        [⟨1, "Al", "a@b.c", bcryptHash "secret1", "", "member"⟩] 2
        ⟨some "Bo", some "b@c.d", some "secret2", none, none⟩).1 =
      .failure 500 "NO_JWT_SECRET" "Server misconfigured: JWT_SECRET not set" ∧
    (([⟨1, "Al", "a@b.c", bcryptHash "secret1", "", "member"⟩] : List User).find?
        (fun v => v.email == normalizeEmail ((some "a@b.c" : Option String).getD "")) =
          some ⟨1, "Al", "a@b.c", bcryptHash "secret1", "", "member"⟩ →
      normalizeEmail ((some "a@b.c" : Option String).getD "") ≠ "" →
      ((some "secret1" : Option String).getD "") ≠ "" →
      bcryptCompare ((some "secret1" : Option String).getD "")
        (⟨1, "Al", "a@b.c", bcryptHash "secret1", "", "member"⟩ : User).password = true →
      loginUser ⟨none, none⟩
          [⟨1, "Al", "a@b.c", bcryptHash "secret1", "", "member"⟩]
          ⟨some "a@b.c", some "secret1"⟩ =
        .failure 500 "NO_JWT_SECRET" "Server misconfigured: JWT_SECRET not set") :=
  auth_unset_secret_500 ⟨none, none⟩
    [⟨1, "Al", "a@b.c", bcryptHash "secret1", "", "member"⟩] 2
    ⟨some "Bo", some "b@c.d", some "secret2", none, none⟩
    ⟨some "a@b.c", some "secret1"⟩
    ⟨1, "Al", "a@b.c", bcryptHash "secret1", "", "member"⟩
    (by decide) (by decide) (by decide) (by decide) (by decide) (by decide)

/-- Helper: a successful `sendUser` body is exactly the six-field record
built from the user, with a token signed by the configured secret and a
7-day expiry. -/
theorem sendUser_some_shape (env : Env) (u : User) (r : UserResponse)
    (h : sendUser env u = some r) :
    r = ⟨u._id, u.name, u.email, u.role, u.profileImageUrl,
      ⟨u._id, env.jwtSecret.getD "", 7⟩⟩ := by
  unfold sendUser generateToken at h
  split_ifs at h
  · exact (Option.some.inj h).symm
  · exact Option.noConfusion h

/-- C6: every successful register (status 201) and login (status 200)
returns a body that is exactly the six-field record
`{_id, name, email, role, profileImageUrl, token}` — the type
`UserResponse` has no password field — where the token is signed with
the configured secret and carries a 7-day expiry. -/
theorem auth_success_response_shape (env : Env) (store : List User) (nextId : Nat)
    (req : RegisterReq) (st : Nat) (body : UserResponse)
    (req2 : LoginReq) (st2 : Nat) (body2 : UserResponse) :
    ((registerUser env store nextId req).1 = .success st body →
      st = 201 ∧
      body = ⟨nextId, jsTrim (req.name.getD ""), normalizeEmail (req.email.getD ""),
        body.role, req.profileImageUrl.getD "", ⟨nextId, env.jwtSecret.getD "", 7⟩⟩) ∧
    (loginUser env store req2 = .success st2 body2 →
      st2 = 200 ∧ ∃ u ∈ store,
        body2 = ⟨u._id, u.name, u.email, u.role, u.profileImageUrl,
          ⟨u._id, env.jwtSecret.getD "", 7⟩⟩) := by
  constructor
  · intro h
    unfold registerUser at h
    dsimp only at h
    split_ifs at h
    all_goals
      split at h
      case _ b heq =>
        injection h with hst hb
        subst hb
        have hsh := sendUser_some_shape _ _ _ heq
        exact ⟨hst.symm, by rw [hsh]⟩
      case _ heq => exact ApiResult.noConfusion h
  · intro h
    unfold loginUser at h
    dsimp only at h
    split_ifs at h
    all_goals
      split at h
      case _ heq => exact ApiResult.noConfusion h
      case _ u heq =>
        split_ifs at h
        all_goals
          split at h
          case _ b heq2 =>
            injection h with hst hb
            subst hb
            exact ⟨hst.symm, u, List.mem_of_find?_eq_some heq,
              sendUser_some_shape _ _ _ heq2⟩
          case _ heq2 => exact ApiResult.noConfusion h

/-- Closed instance of `auth_success_response_shape`: a successful
concrete registration, with both premises discharged. -/
theorem auth_success_response_shape_witness :
    ((registerUser ⟨some "s", none⟩ [] 1
        ⟨some "Al", some "a@b.c", some "secret1", none, none⟩).1 =
      .success 201 ⟨1, "Al", "a@b.c", "member", "", ⟨1, "s", 7⟩⟩) ∧
    (201 = 201 ∧
      (⟨1, "Al", "a@b.c", "member", "", ⟨1, "s", 7⟩⟩ : UserResponse) =
        ⟨1, jsTrim ((some "Al" : Option String).getD ""),
          normalizeEmail ((some "a@b.c" : Option String).getD ""),
          (⟨1, "Al", "a@b.c", "member", "", ⟨1, "s", 7⟩⟩ : UserResponse).role,
          (none : Option String).getD "",
          ⟨1, (⟨some "s", none⟩ : Env).jwtSecret.getD "", 7⟩⟩) :=
  ⟨by decide,
    (auth_success_response_shape ⟨some "s", none⟩ [] 1
      ⟨some "Al", some "a@b.c", some "secret1", none, none⟩ 201
      ⟨1, "Al", "a@b.c", "member", "", ⟨1, "s", 7⟩⟩
      ⟨none, none⟩ 0 ⟨0, "", "", "", "", ⟨0, "", 7⟩⟩).1 (by decide)⟩
